import Mathlib

/-
Shallow embedding of the PharmaGenie pharmacogenomic core:
the VCF variant extractor and phenotype inference (vcfUtils), the
drug-risk rule engine and confidence scoring (pgxService/types), and
the hallucination guardrail of the explanation layer (geminiService).
JavaScript numbers are modelled as exact rationals; JavaScript strings
as Lean strings, with the string primitives spelled out on character
lists so that every definition is executable by the kernel.
-/

/-- Splits a character list at every occurrence of the separator, like
JavaScript `s.split(sep)` for a one-character separator: adjacent
separators and a leading/trailing separator produce empty pieces, and
the empty input yields a single empty piece. -/
def splitChars (sep : Char) : List Char → List (List Char)
  | [] => [[]]
  | c :: rest =>
    if c = sep then [] :: splitChars sep rest
    else
      match splitChars sep rest with
      | [] => [[c]]
      | h :: t => (c :: h) :: t

/-- JavaScript `hay.includes(needle)`: contiguous-substring test. -/
def containsSeg : List Char → List Char → Bool
  | [], needle => needle.isEmpty
  | c :: rest, needle => needle.isPrefixOf (c :: rest) || containsSeg rest needle

/-- JavaScript `s.includes(t)` on strings. -/
def strContains (s t : String) : Bool :=
  containsSeg s.data t.data

/-- JavaScript `s.startsWith(t)` on strings. -/
def strStartsWith (s t : String) : Bool :=
  t.data.isPrefixOf s.data

/-- JavaScript `s.toLowerCase()` (ASCII case folding). -/
def jsToLower (s : String) : String :=
  String.mk (s.data.map Char.toLower)

/-- JavaScript `!line.trim()`: the line is empty or all whitespace. -/
def isBlank (s : String) : Bool :=
  s.data.all Char.isWhitespace

/-- A rational constant given directly in lowest terms, so that the
kernel can evaluate comparisons on it; every decimal constant of the
source is written this way (0.35 becomes ratC 7 20, and so on). -/
def ratC (n : ℤ) (d : ℕ) (h1 : d ≠ 0 := by decide) (h2 : n.natAbs.Coprime d := by decide) : ℚ :=
  ⟨n, d, h1, h2⟩

/-- JavaScript `x || d` applied to an optional number: both `undefined`
and `0` are falsy and select the default. -/
def jsOr (x : Option ℚ) (d : ℚ) : ℚ :=
  match x with
  | some q => if q = 0 then d else q
  | none => d

/-- Leftmost match of the regular expression `TAG([^;]+)` for a literal
tag, returning the captured group: scan left to right; at the first
position where the tag occurs followed by at least one character other
than a semicolon, capture the maximal run of non-semicolon characters. -/
def matchKeyValue (tag : List Char) : List Char → Option (List Char)
  | [] => none
  | c :: rest =>
    if tag.isPrefixOf (c :: rest) then
      let cap := ((c :: rest).drop tag.length).takeWhile (fun ch => ch ≠ ';')
      if cap.isEmpty then matchKeyValue tag rest else some cap
    else matchKeyValue tag rest

/-- Leftmost match of the regular expression `RS=(rs\d+)`, returning the
captured group (the literal `rs` followed by the maximal digit run). -/
def matchRsTag : List Char → Option (List Char)
  | [] => none
  | c :: rest =>
    if "RS=rs".data.isPrefixOf (c :: rest) then
      let ds := ((c :: rest).drop 5).takeWhile Char.isDigit
      if ds.isEmpty then matchRsTag rest else some ("rs".data ++ ds)
    else matchRsTag rest

/-- One detected pharmacogenomic variant (types.ts, DetectedVariant). -/
structure DetectedVariant where
  rsid : String
  gene : String
  genotype : String
  star_allele : Option String := none
  frequency : Option ℚ := none
deriving DecidableEq

/-- Simulated population frequencies for common PGx variants
(vcfUtils, VARIANT_FREQUENCIES). -/
def VARIANT_FREQUENCIES : List (String × ℚ) :=
  [("rs9923231", ratC 7 20),
   ("rs4149056", ratC 3 20),
   ("rs12248560", ratC 9 50),
   ("rs28371706", ratC 1 100),
   ("rs1057910", ratC 7 100),
   ("rs1799853", ratC 3 25)]

/-- JavaScript `VARIANT_FREQUENCIES[rsid]`: `some` the mapped value, or
`none` when the key is absent. -/
def freqLookup (rsid : String) : Option ℚ :=
  (VARIANT_FREQUENCIES.find? (fun p => p.1 == rsid)).map (fun p => p.2)

/-- The body of the parseVCF line loop: comment and blank lines and
lines with fewer than eight tab-separated fields yield nothing; other
lines yield a variant when an rsid, gene tag or star-allele tag is
found. -/
def parseLine (line : String) : Option DetectedVariant :=
  if strStartsWith line "#" || isBlank line then none else
  let parts := (splitChars '\t' line.data).map String.mk
  if parts.length < 8 then none else
  let id := parts.getD 2 ""
  let ref := parts.getD 3 ""
  let alt := parts.getD 4 ""
  let info := parts.getD 7 ""
  let rsidFromId := if id == "." then "" else id
  let rsid :=
    if rsidFromId == "" then
      match matchRsTag info.data with
      | some cs => String.mk cs
      | none => ""
    else rsidFromId
  let geneM := matchKeyValue "GENE=".data info.data
  let starM := matchKeyValue "STAR=".data info.data
  if rsid != "" || geneM.isSome || starM.isSome then
    let detectedRsid := if rsid == "" then "unknown" else rsid
    some {
      rsid := detectedRsid
      gene := match geneM with
              | some cs => String.mk cs
              | none => "Unknown"
      genotype := ref ++ "/" ++ alt
      star_allele := starM.map String.mk
      frequency := some (jsOr (freqLookup detectedRsid) (ratC 1 20)) }
  else none

/-- vcfUtils parseVCF: split the record text into lines and run the
line loop. -/
def parseVCF (content : String) : List DetectedVariant :=
  ((splitChars '\n' content.data).map String.mk).filterMap parseLine

/-- The engine-supplied discrete prior over the five metabolizer
categories (types.ts, PhenotypeProbability). -/
structure PhenotypeProbability where
  PM : ℚ
  IM : ℚ
  NM : ℚ
  RM : ℚ
  URM : ℚ
deriving DecidableEq

/-- The record returned by getPhenotype. -/
structure PhenotypeResult where
  diplotype : String
  phenotype : String
  probabilities : PhenotypeProbability
  rarityScore : ℚ
deriving DecidableEq

/-- The gene-relevance filter shared by getPhenotype and the
detected_variants field of analyzeDrugRisk: the gene field equals the
target gene, or the rsid contains the gene symbol as a substring. -/
def relevantVariants (gene : String) (variants : List DetectedVariant) : List DetectedVariant :=
  variants.filter (fun v => v.gene == gene || strContains v.rsid gene)

/-- The per-gene rule branches of getPhenotype, computing diplotype,
phenotype and probability distribution from the relevant variants.
The decimal distribution entries of the source appear here in lowest
terms (for CYP2D6 star-4: 0.90/0.08/0.02/0/0 and so on). -/
def phenotypeCall (gene : String) (geneVariants : List DetectedVariant) :
    String × String × PhenotypeProbability :=
  let dflt : String × String × PhenotypeProbability :=
    ("*1/*1", "NM", ⟨ratC 1 20, ratC 3 20, ratC 7 10, ratC 1 20, ratC 1 20⟩)
  if gene == "CYP2D6" then
    if geneVariants.any (fun v => v.star_allele == some "*4") then
      ("*4/*4", "PM", ⟨ratC 9 10, ratC 2 25, ratC 1 50, 0, 0⟩)
    else if geneVariants.any (fun v => v.star_allele == some "*1xN") then
      ("*1/*1xN", "URM", ⟨0, 0, ratC 1 10, ratC 1 5, ratC 7 10⟩)
    else dflt
  else if gene == "CYP2C19" then
    if geneVariants.any (fun v => v.star_allele == some "*2") then
      ("*2/*2", "PM", ⟨ratC 17 20, ratC 1 10, ratC 1 20, 0, 0⟩)
    else if geneVariants.any (fun v => v.star_allele == some "*17") then
      ("*17/*17", "RM", ⟨0, 0, ratC 3 20, ratC 4 5, ratC 1 20⟩)
    else dflt
  else if gene == "CYP2C9" then
    if geneVariants.any (fun v => v.star_allele == some "*3") then
      ("*3/*3", "PM", ⟨ratC 19 20, ratC 1 25, ratC 1 100, 0, 0⟩)
    else if geneVariants.any (fun v => v.star_allele == some "*2") then
      ("*2/*2", "IM", ⟨ratC 1 10, ratC 4 5, ratC 1 10, 0, 0⟩)
    else dflt
  else if gene == "SLCO1B1" then
    if geneVariants.any (fun v => v.rsid == "rs4149056" && strContains v.genotype "C") then
      if geneVariants.any (fun v => v.genotype == "C/C") then
        ("C/C", "PM", ⟨ratC 19 20, ratC 1 20, 0, 0, 0⟩)
      else
        ("T/C", "IM", ⟨ratC 1 10, ratC 17 20, ratC 1 20, 0, 0⟩)
    else dflt
  else if gene == "TPMT" then
    if geneVariants.any (fun v => v.star_allele == some "*3A") then
      ("*3A/*3A", "PM", ⟨ratC 49 50, ratC 1 50, 0, 0, 0⟩)
    else dflt
  else if gene == "DPYD" then
    if geneVariants.any (fun v => v.star_allele == some "*2A") then
      ("*2A/*2A", "PM", ⟨ratC 99 100, ratC 1 100, 0, 0, 0⟩)
    else dflt
  else dflt

/-- vcfUtils getPhenotype: filter the relevant variants, compute the
rarity score (one minus the mean frequency, with the JavaScript
frequency-or-0.5 default), and run the per-gene rule branches. -/
def getPhenotype (gene : String) (variants : List DetectedVariant) : PhenotypeResult :=
  let geneVariants := relevantVariants gene variants
  let rarityScore : ℚ :=
    if geneVariants.length > 0 then
      1 - (geneVariants.foldl (fun acc v => acc + jsOr v.frequency (ratC 1 2)) 0) /
            (geneVariants.length : ℚ)
    else 0
  let call := phenotypeCall gene geneVariants
  { diplotype := call.1
    phenotype := call.2.1
    probabilities := call.2.2
    rarityScore := rarityScore }

/-- The six supported drugs (types.ts, SUPPORTED_DRUGS). -/
inductive SupportedDrug
  | CODEINE
  | WARFARIN
  | CLOPIDOGREL
  | SIMVASTATIN
  | AZATHIOPRINE
  | FLUOROURACIL
deriving DecidableEq

/-- The drug name as a string, as interpolated in the source. -/
def drugName : SupportedDrug → String
  | .CODEINE => "CODEINE"
  | .WARFARIN => "WARFARIN"
  | .CLOPIDOGREL => "CLOPIDOGREL"
  | .SIMVASTATIN => "SIMVASTATIN"
  | .AZATHIOPRINE => "AZATHIOPRINE"
  | .FLUOROURACIL => "FLUOROURACIL"

/-- The fixed 1:1 drug-to-primary-gene mapping (pgxService,
DRUG_GENE_MAP). -/
def DRUG_GENE_MAP : SupportedDrug → String
  | .CODEINE => "CYP2D6"
  | .WARFARIN => "CYP2C9"
  | .CLOPIDOGREL => "CYP2C19"
  | .SIMVASTATIN => "SLCO1B1"
  | .AZATHIOPRINE => "TPMT"
  | .FLUOROURACIL => "DPYD"

/-- pgxService calculateConfidence: the weighted blend of CPIC level
weight (0.4), variant-count reliability (0.3) and annotation
completeness (0.3). -/
def calculateConfidence (level : String) (variantsFound : ℕ) (geneCoverage : ℚ) : ℚ :=
  let levelWeight : ℚ := if level == "A" then 1 else if level == "B" then ratC 7 10 else ratC 2 5
  let reliability : ℚ := min ((variantsFound : ℚ) / 2) 1
  let completeness := geneCoverage
  levelWeight * ratC 2 5 + reliability * ratC 3 10 + completeness * ratC 3 10

/-- The mutable locals of the analyzeDrugRisk rule switch, bundled as a
state record: each per-drug case updates some of these fields. -/
structure RuleState where
  risk_label : String := "Safe"
  severity : String := "none"
  action : String := "Standard dosing according to clinical standards."
  dosage_adjustment : String := "None"
  alternatives : List String := []
  interaction_effect : String := "No significant multi-gene interactions detected."
  genes_involved : List String
  composite_score : ℚ := 0
deriving DecidableEq

/-- The deterministic CPIC rule switch of analyzeDrugRisk, one case per
drug, starting from the default state. -/
def applyDrugRules (drug : SupportedDrug) (phenotype : String) (gene : String)
    (variants : List DetectedVariant) : RuleState :=
  let s0 : RuleState := { genes_involved := [gene] }
  match drug with
  | .CODEINE =>
    if phenotype == "URM" then
      { s0 with
        risk_label := "Toxic", severity := "high",
        action := "Avoid codeine use due to potential for toxicity.",
        dosage_adjustment := "N/A",
        alternatives := ["Morphine", "Non-opioid analgesics"] }
    else if phenotype == "PM" then
      { s0 with
        risk_label := "Ineffective", severity := "moderate",
        action := "Avoid codeine use due to lack of efficacy.",
        dosage_adjustment := "N/A",
        alternatives := ["Morphine", "Oxycodone"] }
    else s0
  | .WARFARIN =>
    let s1 :=
      match variants.find? (fun v => v.rsid == "rs9923231") with
      | some _ =>
        { s0 with
          genes_involved := s0.genes_involved ++ ["VKORC1"],
          interaction_effect := "CYP2C9 metabolism combined with VKORC1 sensitivity significantly alters warfarin requirements.",
          composite_score := ratC 17 20 }
      | none => s0
    if phenotype == "PM" || phenotype == "IM" then
      { s1 with
        risk_label := "Adjust Dosage", severity := "moderate",
        action := "Lower initial dose recommended.",
        dosage_adjustment := if phenotype == "PM" then "Decrease dose by 50-70%" else "Decrease dose by 20-30%",
        alternatives := ["DOACs (Apixaban, Rivaroxaban)"] }
    else s1
  | .CLOPIDOGREL =>
    if phenotype == "PM" || phenotype == "IM" then
      { s0 with
        risk_label := "Ineffective", severity := "high",
        action := "Avoid clopidogrel; consider alternative antiplatelet therapy.",
        dosage_adjustment := "N/A",
        alternatives := ["Prasugrel", "Ticagrelor"] }
    else s0
  | .SIMVASTATIN =>
    if phenotype == "PM" || phenotype == "IM" then
      { s0 with
        risk_label := "Toxic", severity := "moderate",
        action := "Prescribe lower dose or consider alternative statin.",
        dosage_adjustment := "Limit dose to 20mg/day or less.",
        alternatives := ["Pravastatin", "Rosuvastatin"] }
    else s0
  | .AZATHIOPRINE =>
    if phenotype == "PM" then
      { s0 with
        risk_label := "Toxic", severity := "critical",
        action := "Drastically reduce dose or avoid use.",
        dosage_adjustment := "Reduce dose by 10-fold and monitor closely.",
        alternatives := ["Methotrexate", "Mycophenolate mofetil"] }
    else s0
  | .FLUOROURACIL =>
    let dpydVariants := variants.filter (fun v => v.gene == "DPYD")
    let s1 :=
      if dpydVariants.length > 1 then
        { s0 with
          interaction_effect := "Multiple DPYD variants detected, increasing risk of severe toxicity.",
          composite_score := ratC 9 10 }
      else s0
    if phenotype == "PM" then
      { s1 with
        risk_label := "Toxic", severity := "critical",
        action := "Avoid use or significantly reduce dose.",
        dosage_adjustment := "Reduce dose by 50% or more.",
        alternatives := ["Capecitabine", "Alternative chemotherapy"] }
    else s1

structure RiskAssessment where
  risk_label : String
  confidence_score : ℚ
  severity : String
deriving DecidableEq

structure PharmacogenomicProfile where
  primary_gene : String
  diplotype : String
  phenotype : String
  detected_variants : List DetectedVariant
  phenotype_probability : PhenotypeProbability
  variant_rarity_score : ℚ
deriving DecidableEq

structure CPICAlignment where
  guideline_level : String
  source : String
  evidence_strength : String
deriving DecidableEq

structure MultiGeneInteraction where
  genes_involved : List String
  interaction_effect : String
  composite_score : ℚ
deriving DecidableEq

structure ClinicalRecommendation where
  action : String
  dosage_adjustment : String
  alternatives : Option (List String)
  guideline_reference : String
deriving DecidableEq

/-- The bundle returned by analyzeDrugRisk (PGxResult minus the
explanation, patient id, timestamp and quality metrics). -/
structure AnalysisResult where
  drug : SupportedDrug
  risk_assessment : RiskAssessment
  pharmacogenomic_profile : PharmacogenomicProfile
  cpic_alignment : CPICAlignment
  multi_gene_interaction : MultiGeneInteraction
  clinical_recommendation : ClinicalRecommendation
deriving DecidableEq

/-- pgxService analyzeDrugRisk: look up the primary gene, infer the
phenotype, run the rule switch, and assemble the result with the
confidence score computed from the count of variants whose gene field
equals the primary gene (CPIC level fixed to A, completeness 0.9). -/
def analyzeDrugRisk (drug : SupportedDrug) (variants : List DetectedVariant) : AnalysisResult :=
  let gene := DRUG_GENE_MAP drug
  let ph := getPhenotype gene variants
  let s := applyDrugRules drug ph.phenotype gene variants
  let confidence_score :=
    calculateConfidence "A" (variants.filter (fun v => v.gene == gene)).length (ratC 9 10)
  { drug := drug
    risk_assessment := {
      risk_label := s.risk_label
      severity := s.severity
      confidence_score := confidence_score }
    pharmacogenomic_profile := {
      primary_gene := gene
      diplotype := ph.diplotype
      phenotype := ph.phenotype
      detected_variants := relevantVariants gene variants
      phenotype_probability := ph.probabilities
      variant_rarity_score := ph.rarityScore }
    cpic_alignment := {
      guideline_level := "A"
      source := "CPIC Guideline for " ++ drugName drug
      evidence_strength := "Strong" }
    multi_gene_interaction := {
      genes_involved := s.genes_involved
      interaction_effect := s.interaction_effect
      composite_score := s.composite_score }
    clinical_recommendation := {
      action := s.action
      dosage_adjustment := s.dosage_adjustment
      alternatives := if s.alternatives.length > 0 then some s.alternatives else none
      guideline_reference := "CPIC Guidelines (Clinical Pharmacogenetics Implementation Consortium)" } }

/-- The hasHallucination test of geminiService: lower-case both the
detected rsids and the citations; some citation starts with rs and is
not among the detected rsids. -/
def hasHallucination (detected : List DetectedVariant) (citations : List String) : Bool :=
  let detectedRsids := detected.map (fun v => jsToLower v.rsid)
  let mentionedRsids := citations.map (fun c => jsToLower c)
  mentionedRsids.any (fun rsid => strStartsWith rsid "rs" && !(detectedRsids.contains rsid))

/-- The hallucination guardrail verdict of geminiService. -/
def hallucinationCheck (detected : List DetectedVariant) (citations : List String) : String :=
  if hasHallucination detected citations then "failed" else "passed"

/-- The citation list of the deterministic fallback explanation built
when the external generator errors: exactly the detected variant
rsids. -/
def fallbackCitations (detected : List DetectedVariant) : List String :=
  detected.map (fun v => v.rsid)

/-- The single record line of test Scenario A. -/
def scenarioALine : String := "1\t123\trs28371706\tC\tT\t.\t.\tGENE=CYP2D6;STAR=*4"

/-- A two-line record: the Scenario A variant plus a VKORC1 variant
that is not relevant to CYP2D6. -/
def scenarioBRecord : String :=
  "1\t123\trs28371706\tC\tT\t.\t.\tGENE=CYP2D6;STAR=*4\n1\t456\trs9923231\tA\tG\t.\t.\tGENE=VKORC1"

/-- The Scenario A variant, as parseVCF produces it. -/
def vPM : DetectedVariant :=
  { rsid := "rs28371706", gene := "CYP2D6", genotype := "C/T",
    star_allele := some "*4", frequency := some (ratC 1 100) }

/-- A variant with a present frequency of exactly zero, exercising the
falsy-zero branch of the JavaScript frequency default. -/
def vZero : DetectedVariant :=
  { rsid := "rs0", gene := "GENEX", genotype := "A/T",
    star_allele := none, frequency := some 0 }

/-- An rs4149056 SLCO1B1 variant whose genotype is exactly C/C. -/
def vCC : DetectedVariant :=
  { rsid := "rs4149056", gene := "SLCO1B1", genotype := "C/C",
    star_allele := none, frequency := some (ratC 3 20) }

/-- An rs4149056 SLCO1B1 variant with the heterozygous T/C genotype. -/
def vTC : DetectedVariant :=
  { rsid := "rs4149056", gene := "SLCO1B1", genotype := "T/C",
    star_allele := none, frequency := some (ratC 3 20) }

/-- An rs9923231 VKORC1 variant, the warfarin secondary marker. -/
def vW : DetectedVariant :=
  { rsid := "rs9923231", gene := "VKORC1", genotype := "A/G",
    star_allele := none, frequency := some (ratC 7 20) }

/-- A record line with a star-allele tag but no gene tag. -/
def scenarioStarLine : String := "1\t123\trs777\tA\tG\t.\t.\tSTAR=*2"

/-- The variant parsed from the star-allele-only line: its gene
defaults to the literal Unknown. -/
def vStar : DetectedVariant :=
  { rsid := "rs777", gene := "Unknown", genotype := "A/G",
    star_allele := some "*2", frequency := some (ratC 1 20) }

/-- A ratC constant equals the corresponding fraction, for use with
norm_num when connecting to decimal notation. -/
theorem ratC_eq_div (n : ℤ) (d : ℕ) (h1 : d ≠ 0) (h2 : n.natAbs.Coprime d) :
    ratC n d h1 h2 = (n : ℚ) / (d : ℚ) := by
  rw [ratC, Rat.mk'_eq_divInt, Rat.divInt_eq_div]
  norm_num

/-- Membership form of Bool list containment for strings. -/
theorem contains_iff_mem (l : List String) (a : String) :
    l.contains a = true ↔ a ∈ l := by
  simp [List.contains, List.elem_iff]

/-- C1: on the single Scenario A line, parseVCF yields exactly one
variant with rsid rs28371706, gene CYP2D6 and star allele star-4;
phenotype inference for CYP2D6 yields PM with diplotype star-4 over
star-4; and the CODEINE risk analysis yields the Ineffective label with
moderate severity. -/
theorem scenarioA_end_to_end :
    parseVCF scenarioALine =
      [{ rsid := "rs28371706", gene := "CYP2D6", genotype := "C/T",
         star_allele := some "*4", frequency := some (ratC 1 100) }] ∧
    (getPhenotype "CYP2D6" (parseVCF scenarioALine)).phenotype = "PM" ∧
    (getPhenotype "CYP2D6" (parseVCF scenarioALine)).diplotype = "*4/*4" ∧
    (analyzeDrugRisk .CODEINE (parseVCF scenarioALine)).risk_assessment.risk_label = "Ineffective" ∧
    (analyzeDrugRisk .CODEINE (parseVCF scenarioALine)).risk_assessment.severity = "moderate" := by
  refine ⟨by decide, by decide, by decide, by decide, by decide⟩

/-- C2: the hallucination check fails exactly when some citation,
lower-cased, starts with rs and is missing from the lower-cased
detected rsids; and on the fallback citation list (exactly the detected
rsids) it always passes. -/
theorem hallucination_guardrail :
    (∀ (detected : List DetectedVariant) (citations : List String),
        hallucinationCheck detected citations = "failed" ↔
          ∃ c ∈ citations, strStartsWith (jsToLower c) "rs" = true ∧
            jsToLower c ∉ detected.map (fun v => jsToLower v.rsid)) ∧
    (∀ detected : List DetectedVariant,
        hallucinationCheck detected (fallbackCitations detected) = "passed") := by
  have hff : ∀ (b : Bool), ((if b then "failed" else "passed") : String) = "failed" ↔ b = true := by
    intro b
    cases b <;> simp
  have hchar : ∀ (detected : List DetectedVariant) (citations : List String),
      hasHallucination detected citations = true ↔
        ∃ c ∈ citations, strStartsWith (jsToLower c) "rs" = true ∧
          jsToLower c ∉ detected.map (fun v => jsToLower v.rsid) := by
    intro detected citations
    simp only [hasHallucination]
    rw [List.any_eq_true]
    constructor
    · rintro ⟨x, hx, hpx⟩
      obtain ⟨c, hc, rfl⟩ := List.mem_map.mp hx
      rw [Bool.and_eq_true, Bool.not_eq_true'] at hpx
      refine ⟨c, hc, hpx.1, fun hmem => ?_⟩
      have hct := (contains_iff_mem (detected.map (fun v => jsToLower v.rsid)) (jsToLower c)).mpr hmem
      rw [hpx.2] at hct
      exact Bool.false_ne_true hct
    · rintro ⟨c, hc, hrs, hmem⟩
      refine ⟨jsToLower c, List.mem_map.mpr ⟨c, hc, rfl⟩, ?_⟩
      rw [Bool.and_eq_true, Bool.not_eq_true']
      refine ⟨hrs, ?_⟩
      rcases hct : (detected.map (fun v => jsToLower v.rsid)).contains (jsToLower c) with _ | _
      · exact hct
      · exact absurd ((contains_iff_mem _ _).mp hct) hmem
  constructor
  · intro detected citations
    rw [hallucinationCheck, hff, hchar]
  · intro detected
    rw [hallucinationCheck]
    have hfalse : hasHallucination detected (fallbackCitations detected) = false := by
      simp only [hasHallucination, fallbackCitations, List.map_map]
      rw [List.any_eq_false]
      intro x hx hpx
      have hx' : x ∈ detected.map (fun v => jsToLower v.rsid) := by
        simpa [Function.comp] using hx
      rw [Bool.and_eq_true, Bool.not_eq_true'] at hpx
      have hct := (contains_iff_mem (detected.map (fun v => jsToLower v.rsid)) x).mpr hx'
      rw [hpx.2] at hct
      exact Bool.false_ne_true hct
    rw [hfalse]
    rfl

/-- Per-drug confidence score on the empty variant list. -/
theorem conf_empty (drug : SupportedDrug) :
    (analyzeDrugRisk drug []).risk_assessment.confidence_score = 0.67 := by
  show calculateConfidence "A" (List.length []) (ratC 9 10) = 0.67
  simp only [calculateConfidence, List.length_nil]
  norm_num [ratC_eq_div]

/-- C6: empty record text parses to the empty variant list, and for
every supported drug the analysis of the empty list yields the NM
phenotype, the star-1 over star-1 diplotype, the Safe label, severity
none, and confidence score 0.67. -/
theorem scenarioB_defaults :
    parseVCF "" = [] ∧
    ∀ drug : SupportedDrug,
      (analyzeDrugRisk drug []).pharmacogenomic_profile.phenotype = "NM" ∧
      (analyzeDrugRisk drug []).pharmacogenomic_profile.diplotype = "*1/*1" ∧
      (analyzeDrugRisk drug []).risk_assessment.risk_label = "Safe" ∧
      (analyzeDrugRisk drug []).risk_assessment.severity = "none" ∧
      (analyzeDrugRisk drug []).risk_assessment.confidence_score = 0.67 := by
  refine ⟨by decide, fun drug => ?_⟩
  refine ⟨?_, ?_, ?_, ?_, conf_empty drug⟩ <;> cases drug <;> decide

/-- C8: in the two-variant record, the rs9923231 variant is genuinely
parsed but is not relevant to CYP2D6, so the CODEINE profile's
detected_variants exclude it; a citation of rs9923231 then fails the
hallucination check against the profile, while it would pass against
the full parsed set. -/
theorem citation_checked_against_filtered_profile :
    (parseVCF scenarioBRecord).map (fun v => v.rsid) = ["rs28371706", "rs9923231"] ∧
    ((analyzeDrugRisk .CODEINE (parseVCF scenarioBRecord)).pharmacogenomic_profile.detected_variants.map
        (fun v => v.rsid)) = ["rs28371706"] ∧
    hallucinationCheck
        (analyzeDrugRisk .CODEINE (parseVCF scenarioBRecord)).pharmacogenomic_profile.detected_variants
        ["rs9923231"] = "failed" ∧
    hallucinationCheck (parseVCF scenarioBRecord) ["rs9923231"] = "passed" := by
  refine ⟨by decide, by decide, by decide, by decide⟩

/-- The confidence score of analyzeDrugRisk, unfolded to the
calculateConfidence call on the count of variants whose gene field
equals the primary gene. -/
theorem confidence_score_eq (drug : SupportedDrug) (vs : List DetectedVariant) :
    (analyzeDrugRisk drug vs).risk_assessment.confidence_score =
      calculateConfidence "A" (vs.filter (fun v => v.gene == DRUG_GENE_MAP drug)).length
        (ratC 9 10) := rfl

/-- C3: for every drug and variant list, the confidence score equals
0.4 times the level weight 1.0 plus 0.3 times min(n divided by 2, 1.0)
plus 0.3 times 0.9, with n the count of variants whose gene equals the
primary gene, and the score lies in the unit interval. -/
theorem confidence_score_formula (drug : SupportedDrug) (vs : List DetectedVariant) :
    (analyzeDrugRisk drug vs).risk_assessment.confidence_score =
        0.4 * 1 +
          0.3 * min (((vs.filter (fun v => v.gene == DRUG_GENE_MAP drug)).length : ℚ) / 2) 1 +
          0.3 * 0.9 ∧
    0 ≤ (analyzeDrugRisk drug vs).risk_assessment.confidence_score ∧
    (analyzeDrugRisk drug vs).risk_assessment.confidence_score ≤ 1 := by
  rw [confidence_score_eq]
  simp only [calculateConfidence]
  have hm0 : (0:ℚ) ≤ min (((vs.filter (fun v => v.gene == DRUG_GENE_MAP drug)).length : ℚ) / 2) 1 :=
    le_min (by positivity) (by norm_num)
  have hm1 : min (((vs.filter (fun v => v.gene == DRUG_GENE_MAP drug)).length : ℚ) / 2) 1 ≤ 1 :=
    min_le_right _ _
  norm_num [ratC_eq_div]
  constructor
  · ring
  · constructor <;> linarith

/-- C9: the confidence score always lies between 0.67 and 0.97, being
0.67 plus 0.3 times min(n divided by 2, 1) for n the count of variants
whose gene field equals the primary gene. -/
theorem confidence_score_bounds (drug : SupportedDrug) (vs : List DetectedVariant) :
    (analyzeDrugRisk drug vs).risk_assessment.confidence_score =
        0.67 + 0.3 * min (((vs.filter (fun v => v.gene == DRUG_GENE_MAP drug)).length : ℚ) / 2) 1 ∧
    0.67 ≤ (analyzeDrugRisk drug vs).risk_assessment.confidence_score ∧
    (analyzeDrugRisk drug vs).risk_assessment.confidence_score ≤ 0.97 := by
  rw [confidence_score_eq]
  simp only [calculateConfidence]
  have hm0 : (0:ℚ) ≤ min (((vs.filter (fun v => v.gene == DRUG_GENE_MAP drug)).length : ℚ) / 2) 1 :=
    le_min (by positivity) (by norm_num)
  have hm1 : min (((vs.filter (fun v => v.gene == DRUG_GENE_MAP drug)).length : ℚ) / 2) 1 ≤ 1 :=
    min_le_right _ _
  norm_num [ratC_eq_div]
  constructor
  · ring
  · constructor <;> linarith

/-- The rarity score of getPhenotype, unfolded: one minus the mean of
the frequency-or-0.5 values over the relevant variants, or zero when
none are relevant. -/
theorem rarity_score_eq (gene : String) (vs : List DetectedVariant) :
    (getPhenotype gene vs).rarityScore =
      if (relevantVariants gene vs).length > 0 then
        1 - ((relevantVariants gene vs).foldl
              (fun acc v => acc + jsOr v.frequency (ratC 1 2)) 0) /
            ((relevantVariants gene vs).length : ℚ)
      else 0 := rfl

/-- A left fold accumulating sums equals the sum of the mapped list. -/
theorem foldl_add_map_sum (f : DetectedVariant → ℚ) (l : List DetectedVariant) (a : ℚ) :
    l.foldl (fun acc v => acc + f v) a = a + (l.map f).sum := by
  induction l generalizing a with
  | nil => simp
  | cons v t ih =>
    rw [List.foldl_cons, ih, List.map_cons, List.sum_cons]
    ring

/-- The JavaScript frequency default is inert on a present positive
frequency. -/
theorem jsOr_pos_eq (x : Option ℚ) (d : ℚ) (h : 0 < x.getD 0) : jsOr x d = x.getD 0 := by
  cases x with
  | none => simp at h
  | some q =>
    rw [Option.getD_some] at h ⊢
    rw [jsOr, if_neg h.ne']

/-- C5 counterexample: a relevant variant with a present frequency of
exactly 0 (inside the unit interval) makes the rarity score 0.5, not
the claimed one minus the mean frequency, which would be 1. -/
theorem rarity_score_claim_counterexample :
    vZero.frequency = some 0 ∧
    (0:ℚ) ≤ 0 ∧ (0:ℚ) ≤ 1 ∧
    relevantVariants "GENEX" [vZero] = [vZero] ∧
    (getPhenotype "GENEX" [vZero]).rarityScore = 0.5 ∧
    1 - vZero.frequency.getD 0 = 1 ∧
    (getPhenotype "GENEX" [vZero]).rarityScore ≠ 1 - vZero.frequency.getD 0 := by
  have hrel : relevantVariants "GENEX" [vZero] = [vZero] := by decide
  have hrar : (getPhenotype "GENEX" [vZero]).rarityScore = 0.5 := by
    rw [rarity_score_eq, hrel]
    norm_num [vZero, jsOr, ratC_eq_div]
  refine ⟨rfl, le_refl 0, by norm_num, hrel, hrar, by simp [vZero], ?_⟩
  rw [hrar]
  simp only [vZero, Option.getD_some]
  norm_num

/-- C5 amended: the rarity score is 0 when no relevant variant exists;
and when relevant variants exist, each with a present frequency that is
positive and at most 1, the rarity score is one minus the mean of those
frequencies and lies in the unit interval. (The amendment excludes
frequency 0, which the code replaces by the 0.5 default.) -/
theorem rarity_score_amended (gene : String) (vs : List DetectedVariant) :
    (relevantVariants gene vs = [] → (getPhenotype gene vs).rarityScore = 0) ∧
    ((relevantVariants gene vs ≠ [] ∧
        ∀ v ∈ relevantVariants gene vs, 0 < v.frequency.getD 0 ∧ v.frequency.getD 0 ≤ 1) →
      (getPhenotype gene vs).rarityScore =
          1 - ((relevantVariants gene vs).map (fun v => v.frequency.getD 0)).sum /
              ((relevantVariants gene vs).length : ℚ) ∧
        0 ≤ (getPhenotype gene vs).rarityScore ∧
        (getPhenotype gene vs).rarityScore ≤ 1) := by
  constructor
  · intro h
    rw [rarity_score_eq, h]
    simp
  · rintro ⟨hne, hf⟩
    have hlen : 0 < (relevantVariants gene vs).length := List.length_pos.mpr hne
    have hlenQ : (0:ℚ) < ((relevantVariants gene vs).length : ℚ) := by exact_mod_cast hlen
    have hsum_eq : (relevantVariants gene vs).foldl
          (fun acc v => acc + jsOr v.frequency (ratC 1 2)) 0
        = ((relevantVariants gene vs).map (fun v => v.frequency.getD 0)).sum := by
      rw [show ((relevantVariants gene vs).map (fun v => v.frequency.getD 0))
            = ((relevantVariants gene vs).map (fun v => jsOr v.frequency (ratC 1 2))) from
          List.map_congr_left (fun v hv => (jsOr_pos_eq v.frequency (ratC 1 2) (hf v hv).1).symm)]
      rw [foldl_add_map_sum]
      ring
    have hformula : (getPhenotype gene vs).rarityScore =
        1 - ((relevantVariants gene vs).map (fun v => v.frequency.getD 0)).sum /
            ((relevantVariants gene vs).length : ℚ) := by
      rw [rarity_score_eq, if_pos hlen, hsum_eq]
    have hsum_nonneg : 0 ≤ ((relevantVariants gene vs).map (fun v => v.frequency.getD 0)).sum :=
      List.sum_nonneg (fun x hx => by
        obtain ⟨v, hv, rfl⟩ := List.mem_map.mp hx
        exact le_of_lt (hf v hv).1)
    have hsum_le : ((relevantVariants gene vs).map (fun v => v.frequency.getD 0)).sum ≤
        ((relevantVariants gene vs).length : ℚ) := by
      have h1 := List.sum_le_card_nsmul
        ((relevantVariants gene vs).map (fun v => v.frequency.getD 0)) 1
        (fun x hx => by
          obtain ⟨v, hv, rfl⟩ := List.mem_map.mp hx
          exact (hf v hv).2)
      simpa [List.length_map, nsmul_eq_mul, mul_one] using h1
    have hdiv0 : 0 ≤ ((relevantVariants gene vs).map (fun v => v.frequency.getD 0)).sum /
        ((relevantVariants gene vs).length : ℚ) := div_nonneg hsum_nonneg (le_of_lt hlenQ)
    have hdiv1 : ((relevantVariants gene vs).map (fun v => v.frequency.getD 0)).sum /
        ((relevantVariants gene vs).length : ℚ) ≤ 1 := (div_le_one hlenQ).mpr hsum_le
    refine ⟨hformula, ?_, ?_⟩ <;> rw [hformula] <;> linarith

/-- C5 witness: the amended rarity statement evaluated on one CYP2D6
variant with frequency 0.01. -/
theorem rarity_score_amended_witness :
    (getPhenotype "CYP2D6" [vPM]).rarityScore =
        1 - ((relevantVariants "CYP2D6" [vPM]).map (fun v => v.frequency.getD 0)).sum /
            ((relevantVariants "CYP2D6" [vPM]).length : ℚ) ∧
      0 ≤ (getPhenotype "CYP2D6" [vPM]).rarityScore ∧
      (getPhenotype "CYP2D6" [vPM]).rarityScore ≤ 1 :=
  (rarity_score_amended "CYP2D6" [vPM]).2 ⟨by decide, by decide⟩

/-- The SLCO1B1 branch of the phenotype rule table, isolated. -/
theorem phenotypeCall_SLCO1B1 (rel : List DetectedVariant) :
    phenotypeCall "SLCO1B1" rel =
      if rel.any (fun v => v.rsid == "rs4149056" && strContains v.genotype "C") then
        if rel.any (fun v => v.genotype == "C/C") then
          ("C/C", "PM", ⟨ratC 19 20, ratC 1 20, 0, 0, 0⟩)
        else
          ("T/C", "IM", ⟨ratC 1 10, ratC 17 20, ratC 1 20, 0, 0⟩)
      else
        ("*1/*1", "NM", ⟨ratC 1 20, ratC 3 20, ratC 7 10, ratC 1 20, ratC 1 20⟩) := rfl

/-- C4 counterexample: a single relevant rs4149056 variant with
genotype exactly C/C satisfies the claim's T/C trigger (its genotype
contains C), yet the code yields the C/C diplotype and PM phenotype,
not T/C and IM. -/
theorem slco1b1_claim_counterexample :
    (relevantVariants "SLCO1B1" [vCC]).any
        (fun v => v.rsid == "rs4149056" && strContains v.genotype "C") = true ∧
    (getPhenotype "SLCO1B1" [vCC]).diplotype = "C/C" ∧
    (getPhenotype "SLCO1B1" [vCC]).phenotype = "PM" ∧
    ¬((getPhenotype "SLCO1B1" [vCC]).diplotype = "T/C" ∧
      (getPhenotype "SLCO1B1" [vCC]).phenotype = "IM") := by
  refine ⟨by decide, by decide, by decide, by decide⟩

/-- C4 amended: for SLCO1B1, when some relevant variant has rsid
rs4149056 with a genotype containing C and no relevant variant has
genotype exactly C/C, inference yields T/C, IM and the distribution
0.10/0.85/0.05/0/0; when some relevant rs4149056 variant has genotype
exactly C/C, it yields C/C, PM and 0.95/0.05/0/0/0. -/
theorem slco1b1_inference (vs : List DetectedVariant) :
    (((∃ v ∈ relevantVariants "SLCO1B1" vs,
          v.rsid = "rs4149056" ∧ strContains v.genotype "C" = true) ∧
        ¬(∃ v ∈ relevantVariants "SLCO1B1" vs, v.genotype = "C/C")) →
      (getPhenotype "SLCO1B1" vs).diplotype = "T/C" ∧
      (getPhenotype "SLCO1B1" vs).phenotype = "IM" ∧
      (getPhenotype "SLCO1B1" vs).probabilities = ⟨0.10, 0.85, 0.05, 0, 0⟩) ∧
    ((∃ v ∈ relevantVariants "SLCO1B1" vs, v.rsid = "rs4149056" ∧ v.genotype = "C/C") →
      (getPhenotype "SLCO1B1" vs).diplotype = "C/C" ∧
      (getPhenotype "SLCO1B1" vs).phenotype = "PM" ∧
      (getPhenotype "SLCO1B1" vs).probabilities = ⟨0.95, 0.05, 0, 0, 0⟩) := by
  have hd : (getPhenotype "SLCO1B1" vs).diplotype =
      (phenotypeCall "SLCO1B1" (relevantVariants "SLCO1B1" vs)).1 := rfl
  have hp : (getPhenotype "SLCO1B1" vs).phenotype =
      (phenotypeCall "SLCO1B1" (relevantVariants "SLCO1B1" vs)).2.1 := rfl
  have hpr : (getPhenotype "SLCO1B1" vs).probabilities =
      (phenotypeCall "SLCO1B1" (relevantVariants "SLCO1B1" vs)).2.2 := rfl
  constructor
  · rintro ⟨⟨v, hv, hrs, hC⟩, hnot⟩
    have h1 : (relevantVariants "SLCO1B1" vs).any
        (fun v => v.rsid == "rs4149056" && strContains v.genotype "C") = true :=
      List.any_eq_true.mpr ⟨v, hv, by rw [Bool.and_eq_true, beq_iff_eq]; exact ⟨hrs, hC⟩⟩
    have h2 : (relevantVariants "SLCO1B1" vs).any (fun v => v.genotype == "C/C") = false := by
      rw [List.any_eq_false]
      intro x hx hpx
      exact hnot ⟨x, hx, beq_iff_eq.mp hpx⟩
    rw [hd, hp, hpr, phenotypeCall_SLCO1B1, h1, h2]
    refine ⟨rfl, rfl, ?_⟩
    show (⟨ratC 1 10, ratC 17 20, ratC 1 20, 0, 0⟩ : PhenotypeProbability) = _
    simp only [PhenotypeProbability.mk.injEq]
    norm_num [ratC_eq_div]
  · rintro ⟨v, hv, hrs, hCC⟩
    have h1 : (relevantVariants "SLCO1B1" vs).any
        (fun v => v.rsid == "rs4149056" && strContains v.genotype "C") = true :=
      List.any_eq_true.mpr ⟨v, hv, by
        rw [Bool.and_eq_true, beq_iff_eq, hCC]
        exact ⟨hrs, by decide⟩⟩
    have h2 : (relevantVariants "SLCO1B1" vs).any (fun v => v.genotype == "C/C") = true :=
      List.any_eq_true.mpr ⟨v, hv, beq_iff_eq.mpr hCC⟩
    rw [hd, hp, hpr, phenotypeCall_SLCO1B1, h1, h2]
    refine ⟨rfl, rfl, ?_⟩
    show (⟨ratC 19 20, ratC 1 20, 0, 0, 0⟩ : PhenotypeProbability) = _
    simp only [PhenotypeProbability.mk.injEq]
    norm_num [ratC_eq_div]

/-- C4 witness: the amended SLCO1B1 statement evaluated on the single
heterozygous T/C variant. -/
theorem slco1b1_inference_witness :
    (getPhenotype "SLCO1B1" [vTC]).diplotype = "T/C" ∧
    (getPhenotype "SLCO1B1" [vTC]).phenotype = "IM" ∧
    (getPhenotype "SLCO1B1" [vTC]).probabilities = ⟨0.10, 0.85, 0.05, 0, 0⟩ :=
  (slco1b1_inference [vTC]).1 ⟨by decide, by decide⟩

/-- C7: the warfarin analysis reports the CYP2C9 and VKORC1 pair, the
fixed interaction description and composite score 0.85 exactly when an
rs9923231 variant is present in the input list; otherwise it reports
only CYP2C9, the no-interaction description and composite score 0. -/
theorem warfarin_multi_gene (vs : List DetectedVariant) :
    ((∃ v ∈ vs, v.rsid = "rs9923231") →
      (analyzeDrugRisk .WARFARIN vs).multi_gene_interaction.genes_involved = ["CYP2C9", "VKORC1"] ∧
      (analyzeDrugRisk .WARFARIN vs).multi_gene_interaction.interaction_effect =
        "CYP2C9 metabolism combined with VKORC1 sensitivity significantly alters warfarin requirements." ∧
      (analyzeDrugRisk .WARFARIN vs).multi_gene_interaction.composite_score = 0.85) ∧
    ((∀ v ∈ vs, v.rsid ≠ "rs9923231") →
      (analyzeDrugRisk .WARFARIN vs).multi_gene_interaction.genes_involved = ["CYP2C9"] ∧
      (analyzeDrugRisk .WARFARIN vs).multi_gene_interaction.interaction_effect =
        "No significant multi-gene interactions detected." ∧
      (analyzeDrugRisk .WARFARIN vs).multi_gene_interaction.composite_score = 0) := by
  have hg : (analyzeDrugRisk .WARFARIN vs).multi_gene_interaction.genes_involved =
      (applyDrugRules .WARFARIN (getPhenotype "CYP2C9" vs).phenotype "CYP2C9" vs).genes_involved := rfl
  have he : (analyzeDrugRisk .WARFARIN vs).multi_gene_interaction.interaction_effect =
      (applyDrugRules .WARFARIN (getPhenotype "CYP2C9" vs).phenotype "CYP2C9" vs).interaction_effect := rfl
  have hc : (analyzeDrugRisk .WARFARIN vs).multi_gene_interaction.composite_score =
      (applyDrugRules .WARFARIN (getPhenotype "CYP2C9" vs).phenotype "CYP2C9" vs).composite_score := rfl
  constructor
  · intro hex
    have hfind : (vs.find? (fun v => v.rsid == "rs9923231")).isSome = true :=
      List.find?_isSome.mpr (by
        obtain ⟨v, hv, hr⟩ := hex
        exact ⟨v, hv, beq_iff_eq.mpr hr⟩)
    obtain ⟨w, hw⟩ := Option.isSome_iff_exists.mp hfind
    refine ⟨?_, ?_, ?_⟩
    · rw [hg]
      simp [applyDrugRules, hw, apply_ite]
    · rw [he]
      simp [applyDrugRules, hw, apply_ite]
    · rw [hc]
      simp only [applyDrugRules, hw, apply_ite, ite_self]
      norm_num [ratC_eq_div]
  · intro hnone
    have hfind : vs.find? (fun v => v.rsid == "rs9923231") = none :=
      List.find?_eq_none.mpr (fun x hx hpx => hnone x hx (beq_iff_eq.mp hpx))
    refine ⟨?_, ?_, ?_⟩
    · rw [hg]
      simp [applyDrugRules, hfind, apply_ite]
    · rw [he]
      simp [applyDrugRules, hfind, apply_ite]
    · rw [hc]
      simp [applyDrugRules, hfind, apply_ite]

/-- C7 witness: the warfarin interaction statement evaluated on the
single rs9923231 variant. -/
theorem warfarin_multi_gene_witness :
    (analyzeDrugRisk .WARFARIN [vW]).multi_gene_interaction.genes_involved = ["CYP2C9", "VKORC1"] ∧
    (analyzeDrugRisk .WARFARIN [vW]).multi_gene_interaction.interaction_effect =
      "CYP2C9 metabolism combined with VKORC1 sensitivity significantly alters warfarin requirements." ∧
    (analyzeDrugRisk .WARFARIN [vW]).multi_gene_interaction.composite_score = 0.85 :=
  (warfarin_multi_gene [vW]).1 ⟨vW, by decide, by decide⟩

/-- When the tag does not occur in the scanned text, the key-value
matcher finds nothing. -/
theorem matchKeyValue_eq_none (tag : List Char) (l : List Char)
    (h : containsSeg l tag = false) : matchKeyValue tag l = none := by
  induction l with
  | nil => rfl
  | cons c rest ih =>
    simp only [containsSeg, Bool.or_eq_false_iff] at h
    simp only [matchKeyValue]
    rw [if_neg (by rw [h.1]; simp)]
    exact ih h.2

/-- C10: a parsed variant whose info field carries no GENE= tag gets
the literal Unknown gene, and is therefore relevant to a target gene
(other than Unknown itself) exactly when its rsid contains the gene
symbol as a substring. -/
theorem unknown_gene_fallback (line : String) (v : DetectedVariant) (g : String)
    (hv : parseLine line = some v)
    (hg : strContains (((splitChars '\t' line.data).map String.mk).getD 7 "") "GENE=" = false)
    (hgU : g ≠ "Unknown") :
    v.gene = "Unknown" ∧
    relevantVariants g [v] = (if strContains v.rsid g then [v] else []) := by
  rw [strContains] at hg
  have hnone : matchKeyValue "GENE=".data
      (((splitChars '\t' line.data).map String.mk).getD 7 "").data = none :=
    matchKeyValue_eq_none _ _ hg
  have hbeq : (("Unknown" : String) == g) = false :=
    beq_eq_false_iff_ne.mpr (Ne.symm hgU)
  simp only [parseLine, hnone] at hv
  repeat' split at hv
  all_goals try exact Option.noConfusion hv
  all_goals rw [Option.some.injEq] at hv
  all_goals subst hv
  all_goals refine ⟨rfl, ?_⟩
  all_goals simp only [relevantVariants, List.filter_cons, List.filter_nil, hbeq, Bool.false_or]

/-- C10 witness: the statement evaluated on the star-allele-only line
against the CYP2C19 target gene. -/
theorem unknown_gene_fallback_witness :
    vStar.gene = "Unknown" ∧
    relevantVariants "CYP2C19" [vStar] =
      (if strContains vStar.rsid "CYP2C19" then [vStar] else []) :=
  unknown_gene_fallback scenarioStarLine vStar "CYP2C19" (by decide) (by decide) (by decide)
